import Mathlib

/-!
Verification development for the CBC_Hackathon video-summarizer repository.

The repository contains a React Native client (frontend/) and documentation,
SQL schema and test scripts for a FastAPI backend.  The backend module
(`main.py`: orchestrator, pipeline stages, persistence gateway) is not part
of the snapshot, so those components are modelled from the specification
(doc comments say so explicitly); everything about the client and the SQL
schema is translated directly from the source files.
-/

namespace CBC

/-! ## Data model (spec §3, SQL schema in the Supabase setup script) -/

/-- The durable record produced per submission (spec §3).  Ids and
timestamps are modelled as naturals. -/
structure VideoNote where
  id : Nat
  user_id : String
  source_url : String
  title : String
  category : String
  summary : String
  notes : List String
  transcription : String
  duration : Option Nat
  thumbnail : Option String
  created_at : Nat
deriving DecidableEq, Repr

/-- Input to an insert: a `VideoNote` minus the id, which the store assigns
(`id UUID PRIMARY KEY DEFAULT uuid_generate_v4()` in the schema; freshness
is modelled by a counter). -/
structure NoteData where
  user_id : String
  source_url : String
  title : String
  category : String
  summary : String
  notes : List String
  transcription : String
  duration : Option Nat
  thumbnail : Option String
  created_at : Nat
deriving DecidableEq, Repr

/-- Attach a store-assigned id to the data of a note. -/
def NoteData.withId (d : NoteData) (i : Nat) : VideoNote :=
  { id := i, user_id := d.user_id, source_url := d.source_url, title := d.title,
    category := d.category, summary := d.summary, notes := d.notes,
    transcription := d.transcription, duration := d.duration,
    thumbnail := d.thumbnail, created_at := d.created_at }

/-! ## Rows of the `videos` table (CREATE TABLE in the SQL setup script)

The schema declares `user_id`, `title`, `url` as NOT NULL; `summary`,
`notes`, `thumbnail`, `transcription`, `category`, `duration` are nullable.
A row is modelled with `Option` for every nullable column. -/

structure VideosRow where
  id : Nat
  user_id : Option String
  title : Option String
  url : Option String
  summary : Option String
  notes : Option (List String)
  thumbnail : Option String
  transcription : Option String
  category : Option String
  duration : Option Nat
  created_at : Nat
  updated_at : Nat
deriving DecidableEq, Repr

/-- The column constraints the `videos` table actually enforces on an
inserted row: exactly the three NOT NULL declarations
(`user_id UUID NOT NULL`, `title TEXT NOT NULL`, `url TEXT NOT NULL`).
`category` carries no constraint at all. -/
def videosTableAccepts (r : VideosRow) : Bool :=
  r.user_id.isSome && r.title.isSome && r.url.isSome

/-- A row has a present, non-empty title and a present, non-empty
category. -/
def rowNonEmptyTitleCategory (r : VideosRow) : Bool :=
  (match r.title with
   | some t => t != ""
   | none => false) &&
  (match r.category with
   | some c => c != ""
   | none => false)

/-! ## Persistence gateway (spec §4.6)

Modelled from the spec: `main.py` (the FastAPI backend hosting the
persistence gateway) is not in the repository snapshot; `insert`,
`listByUser` and `listAll` are modelled from §4.6 and §6 of the spec
(append-only insert with a generated fresh id; listing filtered by owner
and ordered by `created_at` descending). -/

/-- Newest-first order on notes: `a` precedes `b` when the timestamp of `b`
is at most the timestamp of `a` (ORDER BY created_at DESC). -/
def byNewest (a b : VideoNote) : Prop :=
  b.created_at ≤ a.created_at

instance : DecidableRel byNewest :=
  fun a b => inferInstanceAs (Decidable (b.created_at ≤ a.created_at))

instance : IsTotal VideoNote byNewest :=
  ⟨fun a b => (Nat.le_total b.created_at a.created_at).symm.symm.imp id id⟩

instance : IsTrans VideoNote byNewest :=
  ⟨fun _ _ _ hab hbc => Nat.le_trans hbc hab⟩

/-- The durable store backing the persistence gateway: the rows of the
`videos` table plus the id-generation state. -/
structure Store where
  rows : List VideoNote
  nextId : Nat
deriving DecidableEq, Repr

/-- Modelled from the spec: §4.6 — insert is append-only and returns the
generated id; it never rewrites an existing row. -/
def Store.insert (s : Store) (d : NoteData) : Nat × Store :=
  (s.nextId, { rows := s.rows ++ [d.withId s.nextId], nextId := s.nextId + 1 })

/-- Modelled from the spec: §4.6/§6 — `GET /videos?user_id=<id>` returns
the rows owned by that user, newest first. -/
def Store.listByUser (s : Store) (u : String) : List VideoNote :=
  List.insertionSort byNewest (s.rows.filter (fun r => r.user_id == u))

/-- Modelled from the spec: §4.6/§6 — omitting `user_id` returns all rows,
newest first. -/
def Store.listAll (s : Store) : List VideoNote :=
  List.insertionSort byNewest s.rows

/-- A read operation in store-passing style: listing returns its result and
the (unchanged) store, making "no intervening writes" explicit. -/
def Store.listByUserOp (s : Store) (u : String) : List VideoNote × Store :=
  (s.listByUser u, s)

/-! ## Error taxonomy and pipeline stages (spec §7, §4.7) -/

/-- The machine-readable error kinds of spec §7. -/
inductive ErrorKind where
  | unsupportedSource
  | accessDenied
  | transientNetworkFailure
  | mediaCorrupt
  | upstreamRateLimited
  | upstreamMalformedResponse
  | persistenceFailure
  | operationalMisconfiguration
deriving DecidableEq, Repr

/-- The non-terminal states of the orchestrator state machine (spec §4.7). -/
inductive Stage where
  | retrieving
  | extracting
  | transcribing
  | summarizing
  | persisting
deriving DecidableEq, Repr

/-- Successful retrieval output (spec §4.2): platform title hint, duration
and platform tag; the media itself lives under a temp handle. -/
structure RetrieveOk where
  title : String
  duration : Nat
  platform : String
deriving DecidableEq, Repr

/-! ## Summarization adapter (spec §4.5) -/

/-- The four-field structure the instruction contract requests. -/
structure SummaryFields where
  title : String
  category : String
  summary : String
  notes : List String
deriving DecidableEq, Repr

/-- The closed-ish category label set (spec §3). -/
def closedCategories : List String :=
  ["fitness", "cooking", "career", "finance", "education", "entertainment", "other"]

/-- Well-formedness of a parsed payload per the expected structure: a
non-empty title, a category from the closed label set, and a bounded note
count (spec §4.5 caps notes at 8). -/
def wellFormedFields (f : SummaryFields) : Bool :=
  f.title != "" && decide (f.category ∈ closedCategories) && decide (f.notes.length ≤ 8)

/-- The raw payload returned by the language-generation capability:
either it parses into the expected four fields or it does not
(`fields = none`). -/
structure RawSummaryPayload where
  fields : Option SummaryFields
deriving DecidableEq, Repr

/-- A payload is well-formed when it parses and the parsed fields pass the
structural checks. -/
def payloadWellFormed (p : RawSummaryPayload) : Bool :=
  match p.fields with
  | some f => wellFormedFields f
  | none => false

/-- Truncation of a transcript used by the fallback summary (first 200
characters). -/
def truncateTranscript (t : String) : String :=
  ⟨t.data.take 200⟩

/-- The fallback record synthesized when the payload is malformed:
title from the platform hint, category `other`, summary a truncation of
the transcript, empty notes (spec §4.5). -/
def fallbackFields (transcript hint : String) : SummaryFields :=
  { title := hint, category := "other",
    summary := truncateTranscript transcript, notes := [] }

/-- Adapter result: the fields plus the degraded marker that is logged
distinctly from a clean success. -/
structure SummarizeResult where
  fields : SummaryFields
  degraded : Bool
deriving DecidableEq, Repr

/-- Modelled from the spec: §4.5 Summarization Adapter — `main.py` is not
in the repository snapshot.  Defensive output parsing: a payload that does
not parse into the expected structure triggers the fallback record instead
of aborting the job, and the degraded outcome is marked. -/
def summarize (p : RawSummaryPayload) (transcript hint : String) : SummarizeResult :=
  match p.fields with
  | some f =>
      if wellFormedFields f then { fields := f, degraded := false }
      else { fields := fallbackFields transcript hint, degraded := true }
  | none => { fields := fallbackFields transcript hint, degraded := true }

/-! ## Orchestrator (spec §4.7) with temp-resource events (spec §4.1) -/

/-- An acquire or release of a Temp Resource Manager handle. -/
inductive TempEvent where
  | acquire (h : Nat)
  | release (h : Nat)
deriving DecidableEq, Repr

/-- The post-retry outcome of each external stage for one run.  Stage-local
bounded retries (spec §4.2–§4.6) are absorbed into the final outcome each
stage delivers to the orchestrator. -/
structure StageOutcomes where
  retrieve : Except ErrorKind RetrieveOk
  extract : Except ErrorKind Unit
  transcribe : Except ErrorKind String
  summaryPayload : Except ErrorKind RawSummaryPayload
  persist : Except ErrorKind Unit
deriving Repr

/-- Terminal state of one run: `Done` with the persisted note, or
`Failed(stage, reason)` (spec §4.7). -/
inductive RunResult where
  | done (note : VideoNote)
  | failed (stage : Stage) (kind : ErrorKind)
deriving DecidableEq, Repr

/-- What one run leaves behind: its terminal state, the temp-resource
event log, and whether a degraded summarization was logged. -/
structure RunTrace where
  result : RunResult
  events : List TempEvent
  degradedLogged : Bool
deriving DecidableEq, Repr

/-- Modelled from the spec: §4.7 Pipeline Orchestrator — `main.py` is not
in the repository snapshot.  Strictly sequential stages; handle 0 holds the
downloaded media, handle 1 the extracted audio; every exit path releases
every handle acquired during the run before returning (spec §4.1, §4.7). -/
def runPipeline (url uid : String) (now : Nat) (env : StageOutcomes) (s : Store) :
    RunTrace × Store :=
  match env.retrieve with
  | .error k =>
      ({ result := .failed .retrieving k,
         events := [.acquire 0, .release 0], degradedLogged := false }, s)
  | .ok r =>
    match env.extract with
    | .error k =>
        ({ result := .failed .extracting k,
           events := [.acquire 0, .acquire 1, .release 1, .release 0],
           degradedLogged := false }, s)
    | .ok _ =>
      match env.transcribe with
      | .error k =>
          ({ result := .failed .transcribing k,
             events := [.acquire 0, .acquire 1, .release 1, .release 0],
             degradedLogged := false }, s)
      | .ok transcript =>
        match env.summaryPayload with
        | .error k =>
            ({ result := .failed .summarizing k,
               events := [.acquire 0, .acquire 1, .release 1, .release 0],
               degradedLogged := false }, s)
        | .ok payload =>
          let sres := summarize payload transcript r.title
          match env.persist with
          | .error k =>
              ({ result := .failed .persisting k,
                 events := [.acquire 0, .acquire 1, .release 1, .release 0],
                 degradedLogged := sres.degraded }, s)
          | .ok _ =>
            let d : NoteData :=
              { user_id := uid, source_url := url, title := sres.fields.title,
                category := sres.fields.category, summary := sres.fields.summary,
                notes := sres.fields.notes, transcription := transcript,
                duration := some r.duration, thumbnail := none,
                created_at := now }
            let out := s.insert d
            ({ result := .done (d.withId out.1),
               events := [.acquire 0, .acquire 1, .release 1, .release 0],
               degradedLogged := sres.degraded }, out.2)

/-- The multiset of handles acquired in an event log. -/
def acquiresOf (es : List TempEvent) : List Nat :=
  es.filterMap fun e =>
    match e with
    | .acquire h => some h
    | .release _ => none

/-- The multiset of handles released in an event log. -/
def releasesOf (es : List TempEvent) : List Nat :=
  es.filterMap fun e =>
    match e with
    | .acquire _ => none
    | .release h => some h

/-! ## Client API layer (frontend/lib/api.ts, frontend/lib/auth.ts) -/

/-- frontend/lib/auth.ts: the hardcoded development user id. -/
def HARDCODED_USER_ID : String := "887eb738-f3a0-4546-ad55-9faaa8e85d43"

/-- frontend/lib/api.ts line 3: the API base URL (env default). -/
def API_BASE_URL : String := "http://10.48.112.8:8000"

/-- A signed-in session (supabase, app/_layout.tsx); `api.ts` never reads
it — it is threaded here only so independence from it can be stated. -/
structure Session where
  sessionUserId : String
deriving DecidableEq, Repr

/-- frontend/lib/api.ts `fetchUserVideos`: the GET URL it issues, built by
interpolating the module-level constant; the ambient session plays no
part. -/
def fetchUserVideosUrl (_session : Session) : String :=
  API_BASE_URL ++ "/videos?user_id=" ++ HARDCODED_USER_ID

/-- The JSON body `transcribeVideo` posts to `/transcribe`. -/
structure TranscribeRequestBody where
  url : String
  user_id : String
deriving DecidableEq, Repr

/-- frontend/lib/api.ts `transcribeVideo`: the POST body it issues;
`user_id` comes from the module-level constant, not the session. -/
def transcribeVideoBody (_session : Session) (videoUrl : String) : TranscribeRequestBody :=
  { url := videoUrl, user_id := HARDCODED_USER_ID }

/-- The `Video` interface of frontend/lib/api.ts. -/
structure Video where
  id : String
  title : String
  platform : String
  category : String
  date : String
  thumbnail : Option String
  summary : String
  notes : List String
  video_url : String
deriving DecidableEq, Repr

/-- The outcome of one `fetch` + `response.json()` round trip as the client
code can observe it: the fetch itself rejects, or a response arrives with a
status and a body that either parses (`some`) or throws on `.json()`
(`none`). -/
inductive FetchOutcome (α : Type) where
  | netError
  | response (status : Nat) (parsed : Option α)
deriving DecidableEq, Repr

/-- `response.ok` of the fetch API: status in the 2xx range. -/
def statusOk (status : Nat) : Bool :=
  200 ≤ status && status < 300

/-- The error a client API function throws. -/
inductive ApiError where
  | network
  | http (status : Nat)
  | parse
deriving DecidableEq, Repr

/-- The `FetchVideosResponse` interface of api.ts. -/
structure FetchVideosResponseBody where
  videos : List Video
deriving DecidableEq, Repr

/-- frontend/lib/api.ts lines 24–46 `fetchUserVideos`: rethrow a fetch
failure, throw on a non-ok status before parsing, throw on a parse
failure, and only otherwise return `data.videos`. -/
def fetchUserVideosResult (o : FetchOutcome FetchVideosResponseBody) :
    Except ApiError (List Video) :=
  match o with
  | .netError => .error .network
  | .response st parsed =>
    if statusOk st then
      match parsed with
      | some data => .ok data.videos
      | none => .error .parse
    else .error (.http st)

/-- The backend response shape for `POST /transcribe` (backend README). -/
structure TranscribeData where
  success : Bool
  message : String
  video_title : String
  duration : Nat
deriving DecidableEq, Repr

/-- frontend/lib/api.ts lines 51–74 `transcribeVideo`: same control flow as
`fetchUserVideos`; on success the whole parsed payload is returned. -/
def transcribeVideoResult (o : FetchOutcome TranscribeData) :
    Except ApiError TranscribeData :=
  match o with
  | .netError => .error .network
  | .response st parsed =>
    if statusOk st then
      match parsed with
      | some data => .ok data
      | none => .error .parse
    else .error (.http st)

/-! ## Home screen categories and filtering (frontend/app/(tabs)/index.tsx
lines 62–81) -/

/-- JS `s.charAt(0).toUpperCase() + s.slice(1)`. -/
def capitalize (s : String) : String :=
  match s.data with
  | [] => ""
  | c :: cs => String.mk (c.toUpper :: cs)

/-- `Array.from(new Set(...))`: deduplication keeping first occurrences in
order. -/
def dedupFirst : List String → List String
  | [] => []
  | a :: l => a :: (dedupFirst l).filter (fun b => b != a)

/-- index.tsx line 63: `Array.from(new Set(videos.map(v =>
v.category).filter(Boolean)))` — the distinct truthy (non-empty) category
values. -/
def uniqueCategories (vs : List Video) : List String :=
  dedupFirst ((vs.map Video.category).filter (fun c => c != ""))

/-- One sidebar entry: display name and count. -/
structure CategoryEntry where
  name : String
  count : Nat
deriving DecidableEq, Repr

/-- index.tsx lines 65–72: the entry `All` counting every video, then one
entry per distinct truthy category, capitalized, counting the videos with
exactly that category string. -/
def categoriesOf (vs : List Video) : List CategoryEntry :=
  ⟨"All", vs.length⟩ ::
    (uniqueCategories vs).map (fun c =>
      ⟨capitalize c, (vs.filter (fun v => v.category == c)).length⟩)

/-- index.tsx lines 76–81: the displayed list — everything under `All`,
otherwise the videos whose capitalized category equals the selection. -/
def filteredVideos (sel : String) (vs : List Video) : List Video :=
  if sel == "All" then vs
  else vs.filter (fun v => capitalize v.category == sel)

/-! ## VideoSummaryModal (both implementations) -/

/-- The optional-field video prop of
frontend/components/VideoSummaryModal.tsx. -/
structure ModalVideoOpt where
  id : Option String
  title : Option String
  platform : Option String
  category : Option String
  date : Option String
  video_url : Option String
  summary : Option String
  notes : Option (List String)
deriving DecidableEq, Repr

/-- What the components/ modal renders: nothing, or the visible sheet with
its displayed strings and note list. -/
inductive ModalRender where
  | null
  | visible (title : String) (categoryLabel : String) (dateLabel : String)
      (summaryText : String) (showsNotes : Bool) (noteItems : List String)
deriving DecidableEq, Repr

/-- frontend/components/VideoSummaryModal.tsx: returns null unless
`isVisible`; otherwise renders title/category/date/summary with the JS
truthiness fallbacks and the notes section only when notes exist and are
non-empty. -/
def renderModal (isVisible : Bool) (video : ModalVideoOpt) : ModalRender :=
  if !isVisible then .null
  else
    .visible
      (match video.title with
       | some t => if t == "" then "Untitled Video" else t
       | none => "Untitled Video")
      (match video.category with
       | some c => if c == "" then "Uncategorized" else capitalize c
       | none => "Uncategorized")
      (match video.date with
       | some d => if d == "" then "Unknown date" else d
       | none => "Unknown date")
      (match video.summary with
       | some s => if s == "" then "No summary available" else s
       | none => "No summary available")
      (match video.notes with
       | some ns => decide (0 < ns.length)
       | none => false)
      (match video.notes with
       | some ns => if 0 < ns.length then ns else []
       | none => [])

/-- The required-field video prop of
frontend/src/components/VideoSummaryModal.tsx. -/
structure ModalVideoReq where
  id : String
  title : String
  platform : String
  date : String
  thumbnail : String
  summary : String
  notes : List String
deriving DecidableEq, Repr

/-- What the src/ modal renders: nothing, or the visible sheet with title,
platform, date and the key-point bullets. -/
inductive ModalRenderSrc where
  | null
  | visible (title : String) (platformLabel : String) (dateLabel : String)
      (keyItems : List String)
deriving DecidableEq, Repr

/-- frontend/src/components/VideoSummaryModal.tsx: returns null unless
`isVisible`; otherwise renders title/platform/date and the note bullets,
falling back to a single summary bullet when notes are empty. -/
def renderModalSrc (isVisible : Bool) (video : ModalVideoReq) : ModalRenderSrc :=
  if !isVisible then .null
  else
    .visible video.title video.platform video.date
      (if 0 < video.notes.length then video.notes
       else [if video.summary == "" then "No summary available" else video.summary])

/-! ## Concrete data used by witnesses -/

/-- A concrete note owned by user `U`, created at time 1. -/
def wNote1 : VideoNote :=
  { id := 1, user_id := "U", source_url := "https://example.com/a",
    title := "first", category := "fitness", summary := "s1", notes := [],
    transcription := "", duration := some 10, thumbnail := none, created_at := 1 }

/-- A concrete note owned by user `U`, created at time 2. -/
def wNote2 : VideoNote :=
  { id := 2, user_id := "U", source_url := "https://example.com/b",
    title := "second", category := "cooking", summary := "s2", notes := [],
    transcription := "", duration := some 20, thumbnail := none, created_at := 2 }

/-- A concrete note owned by user `U`, created at time 3. -/
def wNote3 : VideoNote :=
  { id := 3, user_id := "U", source_url := "https://example.com/c",
    title := "third", category := "other", summary := "s3", notes := [],
    transcription := "", duration := some 30, thumbnail := none, created_at := 3 }

/-- Concrete insert data, used to exercise resubmission of one URL. -/
def wData : NoteData :=
  { user_id := "U", source_url := "https://youtube.com/shorts/xyz",
    title := "resubmitted", category := "other", summary := "s", notes := [],
    transcription := "t", duration := none, thumbnail := none, created_at := 5 }

/-- Concrete successful retrieval with a non-empty platform title. -/
def wRetr : RetrieveOk :=
  { title := "Video Title", duration := 30, platform := "youtube" }

/-- Concrete run environment: every stage succeeds but the summarization
payload does not parse, so the fallback engages. -/
def wEnv : StageOutcomes :=
  { retrieve := .ok wRetr, extract := .ok (), transcribe := .ok "hello world",
    summaryPayload := .ok ⟨none⟩, persist := .ok () }

/-- The note the pipeline persists under `wEnv` from an empty store. -/
def wDoneNote : VideoNote :=
  { id := 0, user_id := "U", source_url := "https://youtube.com/shorts/xyz",
    title := "Video Title", category := "other", summary := "hello world",
    notes := [], transcription := "hello world", duration := some 30,
    thumbnail := none, created_at := 9 }

/-- A row with every NOT NULL column present but no category at all. -/
def nullCategoryRow : VideosRow :=
  { id := 1, user_id := some "887eb738-f3a0-4546-ad55-9faaa8e85d43",
    title := some "Some title", url := some "https://youtube.com/shorts/xyz",
    summary := none, notes := none, thumbnail := none, transcription := none,
    category := none, duration := none, created_at := 0, updated_at := 0 }

/-- A row with an empty-string title (and a category), satisfying every
declared column constraint. -/
def emptyTitleRow : VideosRow :=
  { id := 2, user_id := some "887eb738-f3a0-4546-ad55-9faaa8e85d43",
    title := some "", url := some "https://youtube.com/shorts/xyz",
    summary := none, notes := none, thumbnail := none, transcription := none,
    category := some "fitness", duration := none, created_at := 0, updated_at := 0 }

/-- A loaded video with category `tech`. -/
def vTech : Video :=
  { id := "1", title := "A", platform := "YouTube", category := "tech",
    date := "d1", thumbnail := none, summary := "s1", notes := [], video_url := "u1" }

/-- A loaded video with an empty (falsy) category. -/
def vNoCat : Video :=
  { id := "2", title := "B", platform := "TikTok", category := "",
    date := "d2", thumbnail := none, summary := "s2", notes := [], video_url := "u2" }

/-- A concrete loaded video list for the home screen. -/
def demoVideos : List Video := [vTech, vNoCat]

end CBC

namespace CBC

/-! ## Theorems -/

/-- Claim C2: for every user id `U`, `listByUser` returns exactly the
records owned by `U`, ordered by `created_at` descending; omitting the
user returns all records in the same order; and a user owning exactly
three records created at `t1 < t2 < t3` gets them back as
`[t3, t2, t1]`. -/
theorem listByUser_exactly_owned_newest_first (s : Store) (u : String) :
    (∀ r : VideoNote, r ∈ s.listByUser u ↔ r ∈ s.rows ∧ r.user_id = u) ∧
    (s.listByUser u).Sorted byNewest ∧
    (∀ r : VideoNote, r ∈ s.listAll ↔ r ∈ s.rows) ∧
    s.listAll.Sorted byNewest ∧
    (∀ (k : Nat) (n₁ n₂ n₃ : VideoNote),
      n₁.user_id = u → n₂.user_id = u → n₃.user_id = u →
      n₁.created_at < n₂.created_at → n₂.created_at < n₃.created_at →
      Store.listByUser ⟨[n₁, n₂, n₃], k⟩ u = [n₃, n₂, n₁]) := by
  refine ⟨?_, ?_, ?_, ?_, ?_⟩
  · intro r
    simp [Store.listByUser, List.mem_filter]
  · exact List.sorted_insertionSort byNewest _
  · intro r
    simp [Store.listAll]
  · exact List.sorted_insertionSort byNewest _
  · intro k n₁ n₂ n₃ h₁ h₂ h₃ h12 h23
    have h13 : n₁.created_at < n₃.created_at := Nat.lt_trans h12 h23
    have e23 : ¬ byNewest n₂ n₃ := by simpa [byNewest] using Nat.not_le.mpr h23
    have e13 : ¬ byNewest n₁ n₃ := by simpa [byNewest] using Nat.not_le.mpr h13
    have e12 : ¬ byNewest n₁ n₂ := by simpa [byNewest] using Nat.not_le.mpr h12
    simp [Store.listByUser, List.filter, h₁, h₂, h₃,
      List.insertionSort, List.orderedInsert, e23, e13, e12]

/-- Witness for C2: three concrete notes of user `U` created at
`1 < 2 < 3` come back ordered `[3, 2, 1]`. -/
theorem listByUser_exactly_owned_newest_first_witness :
    Store.listByUser ⟨[wNote1, wNote2, wNote3], 7⟩ "U" = [wNote3, wNote2, wNote1] := by
  have h := listByUser_exactly_owned_newest_first ⟨[wNote1, wNote2, wNote3], 7⟩ "U"
  exact h.2.2.2.2 7 wNote1 wNote2 wNote3 rfl rfl rfl (by decide) (by decide)

/-- Claim C5: insert is append-only — existing rows are untouched, and
inserting the same URL twice (same user) yields two records with distinct
ids appended after the existing rows, never an update of the first. -/
theorem insert_append_only_resubmission_distinct (s : Store) (d₁ d₂ : NoteData)
    (h : d₁.source_url = d₂.source_url) :
    (s.insert d₁).2.rows.take s.rows.length = s.rows ∧
    ((s.insert d₁).2.insert d₂).2.rows
      = s.rows ++ [d₁.withId (s.insert d₁).1, d₂.withId ((s.insert d₁).2.insert d₂).1] ∧
    (s.insert d₁).1 ≠ ((s.insert d₁).2.insert d₂).1 ∧
    (d₁.withId (s.insert d₁).1).id ≠ (d₂.withId ((s.insert d₁).2.insert d₂).1).id := by
  refine ⟨?_, ?_, ?_, ?_⟩
  · simp [Store.insert, List.take_left]
  · simp [Store.insert]
  · simp [Store.insert]
  · simp [Store.insert, NoteData.withId]

/-- Witness for C5: resubmitting concrete data with one URL appends two
rows with the distinct ids 0 and 1. -/
theorem insert_append_only_resubmission_distinct_witness :
    ((Store.insert ⟨[], 0⟩ wData).2.insert wData).2.rows
        = [wData.withId 0, wData.withId 1] ∧
      (Store.insert ⟨[], 0⟩ wData).1 ≠ ((Store.insert ⟨[], 0⟩ wData).2.insert wData).1 := by
  have h := insert_append_only_resubmission_distinct ⟨[], 0⟩ wData wData rfl
  exact ⟨h.2.1, h.2.2.1⟩

/-- Claim C6: listing is idempotent — a list operation leaves the store
unchanged, so two consecutive `listByUser` calls with no intervening
writes return identical ordered results. -/
theorem listByUser_idempotent (s : Store) (u : String) :
    (s.listByUserOp u).2 = s ∧
    ((s.listByUserOp u).2.listByUserOp u).1 = (s.listByUserOp u).1 :=
  ⟨rfl, rfl⟩

/-- Every label of the closed category set is non-empty. -/
theorem closedCategories_ne_empty : ∀ c ∈ closedCategories, c ≠ "" := by decide

/-- The fields the summarization adapter delivers always carry a non-empty
title and category, provided the platform hint is non-empty. -/
theorem summarize_fields_nonempty (p : RawSummaryPayload) (t hint : String)
    (hh : hint ≠ "") :
    (summarize p t hint).fields.title ≠ "" ∧ (summarize p t hint).fields.category ≠ "" := by
  have hother : ("other" : String) ≠ "" := by decide
  rcases p with ⟨fs⟩
  cases fs with
  | none =>
      exact ⟨hh, fun hcat => hother hcat⟩
  | some f =>
      by_cases wf : wellFormedFields f = true
      · have hparts := wf
        rw [wellFormedFields, Bool.and_eq_true, Bool.and_eq_true] at hparts
        obtain ⟨⟨h1, h2⟩, -⟩ := hparts
        have ht : f.title ≠ "" := by simpa using h1
        have hc : f.category ∈ closedCategories := of_decide_eq_true h2
        simp only [summarize]
        rw [if_pos wf]
        exact ⟨ht, closedCategories_ne_empty _ hc⟩
      · simp only [summarize]
        rw [if_neg wf]
        exact ⟨hh, fun hcat => hother hcat⟩

/-- Claim C1 (amended): every run that terminates in `Done` persists a
note with non-empty title and category (appended to the store), given
that retrieval delivers a non-empty platform title; the fallback
guarantees this even when the summarization payload is malformed. -/
theorem done_run_note_nonempty_title_category (url uid : String) (now : Nat)
    (env : StageOutcomes) (s : Store)
    (hhint : ∀ r, env.retrieve = .ok r → r.title ≠ "")
    (note : VideoNote)
    (hdone : (runPipeline url uid now env s).1.result = .done note) :
    note.title ≠ "" ∧ note.category ≠ "" ∧
    (runPipeline url uid now env s).2.rows = s.rows ++ [note] := by
  obtain ⟨re, ex, tr, su, pe⟩ := env
  cases re with
  | error k => simp [runPipeline] at hdone
  | ok r =>
    have hr : r.title ≠ "" := hhint r rfl
    cases ex with
    | error k => simp [runPipeline] at hdone
    | ok exu =>
      cases tr with
      | error k => simp [runPipeline] at hdone
      | ok transcript =>
        cases su with
        | error k => simp [runPipeline] at hdone
        | ok payload =>
          cases pe with
          | error k => simp [runPipeline] at hdone
          | ok peu =>
            have hs := summarize_fields_nonempty payload transcript r.title hr
            simp only [runPipeline, Store.insert, RunResult.done.injEq] at hdone
            subst hdone
            exact ⟨hs.1, hs.2, by simp [runPipeline, Store.insert]⟩

/-- Witness for C1 (amended): under `wEnv` (all stages succeed, payload
malformed) the run persists `wDoneNote`, whose title and category are
non-empty. -/
theorem done_run_note_nonempty_title_category_witness :
    wDoneNote.title ≠ "" ∧ wDoneNote.category ≠ "" ∧
    (runPipeline "https://youtube.com/shorts/xyz" "U" 9 wEnv ⟨[], 0⟩).2.rows
      = [] ++ [wDoneNote] := by
  exact done_run_note_nonempty_title_category "https://youtube.com/shorts/xyz" "U" 9
    wEnv ⟨[], 0⟩
    (by intro r hr; simp only [wEnv] at hr; cases hr; decide)
    wDoneNote (by decide)

/-- Counterexample to claim C1 as stated: the `videos` table does not
enforce a non-empty title and category for every inserted row — a row
with `category` NULL, and a row with an empty-string title, both satisfy
every declared column constraint. -/
theorem videos_table_admits_degenerate_rows :
    videosTableAccepts nullCategoryRow = true ∧
    rowNonEmptyTitleCategory nullCategoryRow = false ∧
    videosTableAccepts emptyTitleRow = true ∧
    rowNonEmptyTitleCategory emptyTitleRow = false :=
  ⟨rfl, rfl, rfl, rfl⟩

/-- Claim C3: a summarization payload that is not well-formed per the
expected structure never aborts the job — the adapter produces the
fallback record (title from the platform hint, category `other`, summary
a truncation of the transcript, empty notes) marked degraded, while a
well-formed payload produces a clean, non-degraded result. -/
theorem malformed_payload_falls_back (p : RawSummaryPayload) (transcript hint : String)
    (h : payloadWellFormed p = false) :
    summarize p transcript hint =
      { fields := { title := hint, category := "other",
                    summary := truncateTranscript transcript, notes := [] },
        degraded := true } ∧
    ∀ (q : RawSummaryPayload) (t₂ h₂ : String), payloadWellFormed q = true →
      (summarize q t₂ h₂).degraded = false := by
  constructor
  · rcases p with ⟨fs⟩
    cases fs with
    | none => rfl
    | some f =>
        have hf : wellFormedFields f = false := by simpa [payloadWellFormed] using h
        simp [summarize, hf, fallbackFields]
  · intro q t₂ h₂ hq
    rcases q with ⟨fs⟩
    cases fs with
    | none => simp [payloadWellFormed] at hq
    | some f =>
        have hf : wellFormedFields f = true := by simpa [payloadWellFormed] using hq
        simp [summarize, hf]

/-- Witness for C3: a concrete unparsable payload yields exactly the
fallback record, degraded; a concrete well-formed payload yields a clean
result. -/
theorem malformed_payload_falls_back_witness :
    summarize ⟨none⟩ "some transcript" "Hint Title" =
      { fields := { title := "Hint Title", category := "other",
                    summary := truncateTranscript "some transcript", notes := [] },
        degraded := true } ∧
    (summarize ⟨some ⟨"T", "career", "s", []⟩⟩ "t" "h").degraded = false := by
  have h := malformed_payload_falls_back ⟨none⟩ "some transcript" "Hint Title" rfl
  exact ⟨h.1, h.2 ⟨some ⟨"T", "career", "s", []⟩⟩ "t" "h" (by decide)⟩

/-- Claim C4: on every exit path of a run — success or failure at any
stage — the multiset of Temp Resource Manager handles acquired equals the
multiset released by termination: no handle leaks. -/
theorem run_releases_all_acquired (url uid : String) (now : Nat)
    (env : StageOutcomes) (s : Store) :
    Multiset.ofList (acquiresOf (runPipeline url uid now env s).1.events)
      = Multiset.ofList (releasesOf (runPipeline url uid now env s).1.events) := by
  obtain ⟨re, ex, tr, su, pe⟩ := env
  cases re <;> cases ex <;> cases tr <;> cases su <;> cases pe <;>
    simp [runPipeline, acquiresOf, releasesOf] <;> decide

/-- Claim C7: both client API calls send the hardcoded user id, whatever
the signed-in session is — two runs under different sessions issue
identical identities. -/
theorem client_sends_hardcoded_user_id (s₁ s₂ : Session) (v₁ v₂ : String) :
    fetchUserVideosUrl s₁ = API_BASE_URL ++ "/videos?user_id=" ++ HARDCODED_USER_ID ∧
    (transcribeVideoBody s₁ v₁).user_id = HARDCODED_USER_ID ∧
    fetchUserVideosUrl s₁ = fetchUserVideosUrl s₂ ∧
    (transcribeVideoBody s₁ v₁).user_id = (transcribeVideoBody s₂ v₂).user_id :=
  ⟨rfl, rfl, rfl, rfl⟩

/-- Claim C8: each client API function succeeds exactly when the fetch
succeeded, the status is 2xx and the body parses; a non-2xx status always
throws (carrying the status), and a success value is exactly the parsed
payload — never a partial result. -/
theorem api_raises_iff_not_ok (o₁ : FetchOutcome FetchVideosResponseBody)
    (o₂ : FetchOutcome TranscribeData) :
    ((∃ vs, fetchUserVideosResult o₁ = .ok vs) ↔
      ∃ st d, o₁ = .response st (some d) ∧ statusOk st = true) ∧
    (∀ st parsed, o₁ = .response st parsed → statusOk st = false →
      fetchUserVideosResult o₁ = .error (.http st)) ∧
    (∀ vs, fetchUserVideosResult o₁ = .ok vs →
      ∃ st, o₁ = .response st (some ⟨vs⟩) ∧ statusOk st = true) ∧
    ((∃ d, transcribeVideoResult o₂ = .ok d) ↔
      ∃ st d, o₂ = .response st (some d) ∧ statusOk st = true) ∧
    (∀ st parsed, o₂ = .response st parsed → statusOk st = false →
      transcribeVideoResult o₂ = .error (.http st)) ∧
    (∀ d, transcribeVideoResult o₂ = .ok d →
      ∃ st, o₂ = .response st (some d) ∧ statusOk st = true) := by
  refine ⟨?_, ?_, ?_, ?_, ?_, ?_⟩
  · constructor
    · rintro ⟨vs, hvs⟩
      cases o₁ with
      | netError => simp [fetchUserVideosResult] at hvs
      | response st parsed =>
        by_cases hok : statusOk st = true
        · cases parsed with
          | none => simp [fetchUserVideosResult, hok] at hvs
          | some d => exact ⟨st, d, rfl, hok⟩
        · simp [fetchUserVideosResult, hok] at hvs
    · rintro ⟨st, d, rfl, hok⟩
      exact ⟨d.videos, by simp [fetchUserVideosResult, hok]⟩
  · rintro st parsed rfl hok
    simp [fetchUserVideosResult, hok]
  · intro vs hvs
    cases o₁ with
    | netError => simp [fetchUserVideosResult] at hvs
    | response st parsed =>
      by_cases hok : statusOk st = true
      · cases parsed with
        | none => simp [fetchUserVideosResult, hok] at hvs
        | some d =>
          refine ⟨st, ?_, hok⟩
          simp [fetchUserVideosResult, hok] at hvs
          cases d with
          | mk dv => cases hvs; rfl
      · simp [fetchUserVideosResult, hok] at hvs
  · constructor
    · rintro ⟨d, hd⟩
      cases o₂ with
      | netError => simp [transcribeVideoResult] at hd
      | response st parsed =>
        by_cases hok : statusOk st = true
        · cases parsed with
          | none => simp [transcribeVideoResult, hok] at hd
          | some d₀ => exact ⟨st, d₀, rfl, hok⟩
        · simp [transcribeVideoResult, hok] at hd
    · rintro ⟨st, d, rfl, hok⟩
      exact ⟨d, by simp [transcribeVideoResult, hok]⟩
  · rintro st parsed rfl hok
    simp [transcribeVideoResult, hok]
  · intro d hd
    cases o₂ with
    | netError => simp [transcribeVideoResult] at hd
    | response st parsed =>
      by_cases hok : statusOk st = true
      · cases parsed with
        | none => simp [transcribeVideoResult, hok] at hd
        | some d₀ =>
          refine ⟨st, ?_, hok⟩
          simp [transcribeVideoResult, hok] at hd
          cases hd; rfl
      · simp [transcribeVideoResult, hok] at hd

/-- Witness for C8: a 404 with no parsed body makes `fetchUserVideos`
throw an HTTP error, and a 500 makes `transcribeVideo` throw one. -/
theorem api_raises_iff_not_ok_witness :
    fetchUserVideosResult (.response 404 none) = .error (.http 404) ∧
    transcribeVideoResult (.response 500 none) = .error (.http 500) := by
  have h := api_raises_iff_not_ok (.response 404 none) (.response 500 none)
  exact ⟨h.2.1 404 none rfl (by decide), h.2.2.2.2.1 500 none rfl (by decide)⟩

/-- Deduplication keeping first occurrences preserves membership. -/
theorem mem_dedupFirst {x : String} : ∀ {l : List String}, x ∈ dedupFirst l ↔ x ∈ l := by
  intro l
  induction l with
  | nil => simp [dedupFirst]
  | cons a l ih =>
      simp only [dedupFirst, List.mem_cons, List.mem_filter, bne_iff_ne, ne_eq, ih]
      by_cases hxa : x = a
      · simp [hxa]
      · simp [hxa]

/-- Deduplication keeping first occurrences yields a duplicate-free
list. -/
theorem nodup_dedupFirst : ∀ l : List String, (dedupFirst l).Nodup := by
  intro l
  induction l with
  | nil => simp [dedupFirst]
  | cons a l ih =>
      rw [dedupFirst, List.nodup_cons]
      refine ⟨?_, ih.filter _⟩
      intro hmem
      rcases List.mem_filter.mp hmem with ⟨-, hne⟩
      simp at hne

/-- Claim C9: the sidebar starts with `All` counting every loaded video,
followed by exactly one entry per distinct truthy category value, named by
its capitalization and counting the videos with exactly that category
string; selecting a named category displays exactly the videos whose
capitalized category equals the selection. -/
theorem categories_and_filtering (vs : List Video) (sel : String) :
    (categoriesOf vs).head? = some ⟨"All", vs.length⟩ ∧
    (∀ e ∈ (categoriesOf vs).tail, ∃ c, c ∈ vs.map Video.category ∧ c ≠ "" ∧
        e = ⟨capitalize c, (vs.filter (fun v => v.category == c)).length⟩) ∧
    (∀ c, c ∈ vs.map Video.category → c ≠ "" →
        (⟨capitalize c, (vs.filter (fun v => v.category == c)).length⟩ : CategoryEntry)
          ∈ (categoriesOf vs).tail) ∧
    (uniqueCategories vs).Nodup ∧
    (categoriesOf vs).tail.length = (uniqueCategories vs).length ∧
    (sel ≠ "All" →
      ∀ v, v ∈ filteredVideos sel vs ↔ v ∈ vs ∧ capitalize v.category = sel) ∧
    filteredVideos "All" vs = vs := by
  refine ⟨rfl, ?_, ?_, nodup_dedupFirst _, by simp [categoriesOf], ?_, by simp [filteredVideos]⟩
  · intro e he
    simp only [categoriesOf, List.tail_cons, List.mem_map] at he
    obtain ⟨c, hc, rfl⟩ := he
    have hc' : c ∈ (vs.map Video.category).filter (fun c => c != "") :=
      mem_dedupFirst.mp hc
    rcases List.mem_filter.mp hc' with ⟨hmem, hne⟩
    exact ⟨c, hmem, by simpa using hne, rfl⟩
  · intro c hmem hne
    simp only [categoriesOf, List.tail_cons, List.mem_map]
    refine ⟨c, ?_, rfl⟩
    exact mem_dedupFirst.mpr (List.mem_filter.mpr ⟨hmem, by simpa using hne⟩)
  · intro hsel v
    have hb : (sel == "All") = false := by
      simpa using hsel
    simp [filteredVideos, hb, List.mem_filter]

/-- Witness for C9: with one `tech` video and one empty-category video
loaded, the sidebar tail contains the entry `Tech` with count 1, and the
`tech` video passes the `Tech` filter. -/
theorem categories_and_filtering_witness :
    (⟨"Tech", 1⟩ : CategoryEntry) ∈ (categoriesOf demoVideos).tail ∧
    (vTech ∈ filteredVideos "Tech" demoVideos ↔
      vTech ∈ demoVideos ∧ capitalize vTech.category = "Tech") := by
  have h := categories_and_filtering demoVideos "Tech"
  have h3 := h.2.2.1 "tech" (by decide) (by decide)
  have e : (⟨capitalize "tech",
      (demoVideos.filter (fun v => v.category == "tech")).length⟩ : CategoryEntry)
      = ⟨"Tech", 1⟩ := by decide
  exact ⟨e ▸ h3, h.2.2.2.2.2.1 (by decide) vTech⟩

/-- Claim C10: both implementations of `VideoSummaryModal` render nothing
when `isVisible` is false, for every video prop. -/
theorem modal_renders_null_when_invisible (v₁ : ModalVideoOpt) (v₂ : ModalVideoReq) :
    renderModal false v₁ = .null ∧ renderModalSrc false v₂ = .null :=
  ⟨rfl, rfl⟩

end CBC
